import Mathlib

/- Shallow embedding of the authentication / authorization gate and the
embed-credential issuance flow of the auth-menu-power-pwa backend.  The
definitions below are translated from `auth-server/server.ts` and from the
rate-limited variant of the same server shipped in the repository (the file
with the `checkEmbedRateLimit` / `sharedDatasetId` code paths).  Machine time
is modelled as `Nat` (milliseconds for the rate limiter, seconds for token
expiry, matching the units each piece of source code uses). -/

namespace AuthPortal

/-- JavaScript truthiness for an optional string value: `undefined` (here
`none`) and the empty string are falsy, every other string is truthy. -/
def jsTruthy : Option String → Bool
  | none => false
  | some s => !(s == "")

/-- JavaScript `a || b` for an optional string `a` with default `b`:
returns `a` when it is truthy, otherwise `b`. -/
def jsOr (a : Option String) (b : String) : String :=
  match a with
  | some s => if s == "" then b else s
  | none => b

/-- JavaScript `.toLowerCase()`, embedded character-wise over the character
list of the string (ASCII lowering, which covers every identifier this
system compares). -/
def jsToLower (s : String) : String :=
  String.mk (s.data.map Char.toLower)

/-- The space character (code point 32), the separator of the JavaScript
`split` call in `verifyJWT`. -/
def spaceChar : Char := Char.ofNat 32

/-- The claim set of a session token, from `interface JwtPayload` in
`auth-server/server.ts`: email, department, isAdmin, optional name. -/
structure JwtPayload where
  email : String
  department : String
  isAdmin : Bool
  name : Option String := none
deriving DecidableEq, Repr

/-- Modelled from the spec: the Session Token Codec of section 4.1.  The
signing primitive itself lives in the external `jsonwebtoken` library, not in
the repository, so a signed token is modelled as its claim set together with
the embedded expiry instant (seconds) and the secret it was signed with;
signature verification is secret equality. -/
structure SignedToken where
  payload : JwtPayload
  exp : Nat
  sig : String
deriving DecidableEq, Repr

/-- Modelled from the spec: `jwt.sign(payload, secret, { expiresIn: ttl })` —
the expiry is issue time plus ttl (seconds). -/
def jwtSign (p : JwtPayload) (secret : String) (issuedAt ttl : Nat) : SignedToken :=
  ⟨p, issuedAt + ttl, secret⟩

/-- Decode failures of the codec (spec section 4.1 taxonomy; both are
surfaced identically by the middleware). -/
inductive JwtError
  | invalidSignature
  | expired
deriving DecidableEq, Repr

/-- Modelled from the spec: `jwt.verify(token, secret)` at clock time `now`
(seconds) — fails when the signature does not verify, fails when the current
time has reached the embedded expiry, otherwise returns the claims. -/
def jwtVerify (t : SignedToken) (secret : String) (now : Nat) : Except JwtError JwtPayload :=
  if t.sig ≠ secret then .error .invalidSignature
  else if t.exp ≤ now then .error .expired
  else .ok t.payload

/-- `expiresIn: "2h"` used by the SSO callback issuance site, in seconds. -/
def sessionTtlSso : Nat := 2 * 60 * 60

/-- `expiresIn: "2h"` used by the manual-login issuance site, in seconds. -/
def sessionTtlManual : Nat := 2 * 60 * 60

/-- `const token = authHeader?.split(' ')[1]` from `verifyJWT`.  The
JavaScript single-character `split` is embedded as `List.splitOn` over the
character list of the header (same semantics: adjacent separators and
leading/trailing separators yield empty segments). -/
def tokenFromHeader (authHeader : Option String) : Option String :=
  match authHeader with
  | none => none
  | some h => ((h.data.splitOn spaceChar).map String.mk).get? 1

/-- Outcome of an express middleware: either an immediate error response
(status code and error text) or passing control on with a value. -/
inductive MwResult (α : Type)
  | respond (status : Nat) (error : String)
  | next (a : α)
deriving DecidableEq, Repr

/-- The `verifyJWT` middleware.  `vf` abstracts `jwt.verify` applied with the
server secret at the current time: it maps a token string to claims or a
decode error.  Missing or empty extracted token → 401; decode error → 403;
otherwise the decoded claims are attached and control passes on. -/
def verifyJWT (vf : String → Except JwtError JwtPayload) (authHeader : Option String) :
    MwResult JwtPayload :=
  match tokenFromHeader authHeader with
  | none => .respond 401 "Token required"
  | some t =>
    if t == "" then .respond 401 "Token required"
    else
      match vf t with
      | .error _ => .respond 403 "Invalid token"
      | .ok p => .next p

/-- The `verifyAdmin` middleware: `if (!req.user?.isAdmin) return 403`. -/
def verifyAdmin (user : Option JwtPayload) : MwResult JwtPayload :=
  match user with
  | none => .respond 403 "Admin only"
  | some u => if u.isAdmin then .next u else .respond 403 "Admin only"

/-- A stored report record.  Only the fields the gate logic reads are
modelled (`isActive` drives the active filter); the projection the handler
applies to each record keeps records one-to-one, so it is modelled as the
identity on the modelled fields. -/
structure Report where
  id : String
  isActive : Option Bool := none
deriving DecidableEq, Repr

/-- Response of `GET /api/reports/:department` after `verifyJWT`. -/
inductive ReportsResponse
  | accessDenied
  | reports (rs : List Report)
deriving DecidableEq, Repr

/-- The `GET /api/reports/:department` handler body, for the decoded claims
`user` attached by `verifyJWT`: admins may read any department, non-admins
only their own; on success the departments records with `isActive !== false`
are returned. -/
def reportsByDepartment (user : JwtPayload) (department : String)
    (reportsData : List (String × List Report)) : ReportsResponse :=
  if !user.isAdmin && department ≠ user.department then .accessDenied
  else
    let departmentReports := (reportsData.lookup department).getD []
    .reports (departmentReports.filter (fun r => r.isActive ≠ some false))

/-- `EMBED_RATE_LIMIT = 10` requests per window. -/
def EMBED_RATE_LIMIT : Nat := 10

/-- `EMBED_RATE_WINDOW = 60 * 1000` milliseconds. -/
def EMBED_RATE_WINDOW : Nat := 60 * 1000

/-- The in-memory `embedRequestCounts` map, as an association list from a
user email to `(count, resetTime)`. -/
abbrev RateState := List (String × (Nat × Nat))

/-- `embedRequestCounts.set(key, value)`: replace the binding for `key`,
appending it when absent. -/
def setCounter (state : RateState) (key : String) (v : Nat × Nat) : RateState :=
  match state with
  | [] => [(key, v)]
  | (k, w) :: rest => if k == key then (key, v) :: rest else (k, w) :: setCounter rest key v

/-- `checkEmbedRateLimit(userEmail)` at clock time `now` (milliseconds),
returning the allow/deny verdict together with the updated counter map. -/
def checkEmbedRateLimit (state : RateState) (userEmail : String) (now : Nat) :
    Bool × RateState :=
  match state.lookup userEmail with
  | none => (true, setCounter state userEmail (1, now + EMBED_RATE_WINDOW))
  | some (count, resetTime) =>
    if resetTime < now then (true, setCounter state userEmail (1, now + EMBED_RATE_WINDOW))
    else if EMBED_RATE_LIMIT ≤ count then (false, state)
    else (true, setCounter state userEmail (count + 1, resetTime))

/-- Run a sequence of `checkEmbedRateLimit` calls for one key at the given
clock times, collecting the verdicts and threading the counter map. -/
def runCalls (state : RateState) (key : String) : List Nat → List Bool × RateState
  | [] => ([], state)
  | t :: ts =>
    let r := checkEmbedRateLimit state key t
    let rest := runCalls r.2 key ts
    (r.1 :: rest.1, rest.2)

/-- Response of `POST /api/reports/generate-embed` after `verifyJWT`. -/
inductive EmbedResponse
  | badRequest
  | rateLimited
  | serverError
  | ok (embedToken : String) (embedUrl : String)
deriving DecidableEq, Repr

/-- The `POST /api/reports/generate-embed` handler of the rate-limited server
variant.  `provider` abstracts the outcome of the awaited
`generatePowerBIEmbed` network exchange.  The returned `Bool` records whether
the provider was consulted at all (no network activity happens before the
`try` block is reached).  Missing `reportId` or `datasetId` → 400 with the
counter map untouched; rate limit exceeded → 429; provider failure → 500 with
no embed data. -/
def generateEmbedHandler (reportId datasetId : Option String)
    (userEmail : String) (state : RateState) (now : Nat)
    (provider : Except String (String × String)) :
    EmbedResponse × RateState × Bool :=
  if !(jsTruthy reportId) || !(jsTruthy datasetId) then (.badRequest, state, false)
  else
    let r := checkEmbedRateLimit state userEmail now
    if !r.1 then (.rateLimited, r.2, false)
    else
      match provider with
      | .error _ => (.serverError, r.2, true)
      | .ok (t, u) => (.ok t u, r.2, true)

/-- One dataset entry of the GenerateToken request body. -/
structure DatasetRef where
  id : String
  xmlaPermissions : String
deriving DecidableEq, Repr

/-- One effective-identity entry of the GenerateToken request body. -/
structure EffectiveIdentity where
  username : String
  roles : List String
  datasets : List String
deriving DecidableEq, Repr

/-- The GenerateToken request body (`embedTokenPayload`). -/
structure EmbedTokenPayload where
  datasets : List DatasetRef
  reports : List String
  targetWorkspaces : List String
  identities : List EffectiveIdentity
deriving DecidableEq, Repr

/-- The fixed service viewer identity used in every effective-identity
entry. -/
def powerBIServiceUser : String := "saineeraj.kumar@samunnati.com"

/-- `sharedDatasetId && sharedDatasetId !== datasetId`: the secondary dataset
participates only when it is provided, truthy, and distinct from the
primary. -/
def sharedIncluded (datasetId : String) : Option String → Bool
  | none => false
  | some s => !(s == "") && !(s == datasetId)

/-- The GenerateToken request built by `generatePowerBIEmbed` in the
rate-limited server variant: the primary dataset, plus the shared dataset
when provided and distinct; one effective-identity entry per included
dataset, each with the fixed username and the single role RM. -/
def embedTokenRequest (reportId datasetId : String) (sharedDatasetId : Option String)
    (groupId : String) : EmbedTokenPayload :=
  let datasets :=
    [DatasetRef.mk datasetId "ReadOnly"] ++
      (match sharedDatasetId with
       | some s => if sharedIncluded datasetId (some s) then [DatasetRef.mk s "ReadOnly"] else []
       | none => [])
  let identities :=
    [EffectiveIdentity.mk powerBIServiceUser ["RM"] [datasetId]] ++
      (match sharedDatasetId with
       | some s =>
         if sharedIncluded datasetId (some s) then
           [EffectiveIdentity.mk powerBIServiceUser ["RM"] [s]]
         else []
       | none => [])
  ⟨datasets, [reportId], [groupId], identities⟩

/-- The GenerateToken request built by `generatePowerBIEmbed` in
`auth-server/server.ts`: the primary and the core dataset are always both
listed, and the single effective-identity entry is scoped to the core
dataset only. -/
def embedTokenRequestCore (reportId datasetId coreDatasetId groupId : String) :
    EmbedTokenPayload :=
  ⟨[DatasetRef.mk datasetId "ReadOnly", DatasetRef.mk coreDatasetId "ReadOnly"],
   [reportId], [groupId],
   [EffectiveIdentity.mk powerBIServiceUser ["RM"] [coreDatasetId]]⟩

/-- One record of the static `userDatabase` credential registry. -/
structure UserRec where
  email : String
  phone : String
  department : String
  password : String
  isAdmin : Bool
deriving DecidableEq, Repr

/-- The `userDatabase` of the current server (two entries). -/
def userDatabase : List UserRec :=
  [⟨"admin@samunnati.com", "", "Admin", "admin123", true⟩,
   ⟨"bhavya.khatri@gmail.com", "9991110003", "Finance", "password123", false⟩]

/-- Response of `POST /auth/manual-login`: 401 invalid credentials, or 200
with the freshly signed session token. -/
inductive LoginResult
  | invalidCredentials
  | token (t : SignedToken)
deriving DecidableEq, Repr

/-- Whether a registry entry matches the lowercased identifier and the
supplied password:
`(u.email.toLowerCase() === identifier || u.phone === identifier) && u.password === password`. -/
def loginMatches (identifier : String) (password : Option String) (u : UserRec) : Bool :=
  (jsToLower u.email == identifier || u.phone == identifier) && some u.password == password

/-- The `POST /auth/manual-login` handler: the identifier is
`(email || phone || "").toLowerCase()`; the first registry entry matching
identifier and password is selected; no match → the single invalid-credentials
error; a match signs a 2h token with the entries email, department and
isAdmin flag. -/
def manualLogin (email phone password : Option String) (secret : String) (now : Nat) :
    LoginResult :=
  let identifier := jsToLower (jsOr email (jsOr phone ""))
  match userDatabase.find? (loginMatches identifier password) with
  | none => .invalidCredentials
  | some u => .token (jwtSign ⟨u.email, u.department, u.isAdmin, none⟩ secret now sessionTtlManual)

/-- The raw profile returned by the identity-provider profile endpoint
(`$select=mail,userPrincipalName,displayName,department`); any field may be
absent. -/
structure GraphProfile where
  mail : Option String := none
  userPrincipalName : Option String := none
  displayName : Option String := none
  department : Option String := none
deriving DecidableEq, Repr

/-- The static `departmentMap` fallback table of the SSO callback. -/
def departmentMap : List (String × String) :=
  [("bhavya@samunnati.com", "Finance"),
   ("john.doe@company.com", "HR"),
   ("name1@gmail.com", "Finance"),
   ("name2@gmail.com", "Sales"),
   ("sarah.wilson@company.com", "Marketing"),
   ("mike.johnson@company.com", "Operations")]

/-- A resolved Identity (spec section 3). -/
structure Identity where
  email : String
  department : String
  displayName : String
  isAdmin : Bool
deriving DecidableEq, Repr

/-- The identity resolution of the SSO callback:
`email = (mail || userPrincipalName || "").toLowerCase()`,
`department = profile.department || fallbackTable[email] || "IT"`,
`name = displayName || "User"`, and the signed payload carries
`isAdmin: false`.  The `auth-server/server.ts` variant is the instance with
an empty fallback table. -/
def resolveIdentity (profile : GraphProfile) (fallbackTable : List (String × String)) :
    Identity :=
  let email := jsToLower (jsOr profile.mail (jsOr profile.userPrincipalName ""))
  let department := jsOr profile.department (jsOr (fallbackTable.lookup email) "IT")
  let name := jsOr profile.displayName "User"
  ⟨email, department, name, false⟩

/-- The session token minted by the SSO callback from a raw profile:
`jwt.sign({ email, department, name, isAdmin: false }, secret, { expiresIn: "2h" })`. -/
def ssoCallbackToken (profile : GraphProfile) (fallbackTable : List (String × String))
    (secret : String) (now : Nat) : SignedToken :=
  let ident := resolveIdentity profile fallbackTable
  jwtSign ⟨ident.email, ident.department, false, some ident.displayName⟩ secret now sessionTtlSso

/-- C1: for every request to the department-scoped reports route carrying a
successfully decoded Session Token, access is granted if and only if the
requested department equals the tokens department or the tokens isAdmin flag
is true; otherwise the request fails with AccessDenied and no report data is
returned. -/
theorem c1_department_scope (user : JwtPayload) (department : String)
    (reportsData : List (String × List Report)) :
    ((∃ rs, reportsByDepartment user department reportsData = .reports rs) ↔
      (department = user.department ∨ user.isAdmin = true)) ∧
    (¬(department = user.department ∨ user.isAdmin = true) →
      reportsByDepartment user department reportsData = .accessDenied) := by
  unfold reportsByDepartment
  by_cases ha : user.isAdmin <;> by_cases hd : department = user.department <;>
    simp [ha, hd]

/-- Witness for C1: a non-admin Finance token is denied on the Sales
department. -/
theorem c1_department_scope_witness :
    reportsByDepartment ⟨"u@x.com", "Finance", false, none⟩ "Sales" [] = .accessDenied :=
  (c1_department_scope ⟨"u@x.com", "Finance", false, none⟩ "Sales" []).2 (by decide)

/-- C5: the Identity Resolver is total, never grants admin, resolves the
profile with mail A@X.com and fallback table a@x.com to Finance, and resolves
the empty profile to email "", department IT, displayName User. -/
theorem c5_identity_resolver :
    (∀ (p : GraphProfile) (fb : List (String × String)),
      (resolveIdentity p fb).isAdmin = false) ∧
    resolveIdentity ⟨some "A@X.com", none, none, none⟩ [("a@x.com", "Finance")] =
      ⟨"a@x.com", "Finance", "User", false⟩ ∧
    (∀ fb : List (String × String), fb.lookup "" = none →
      resolveIdentity ⟨none, none, none, none⟩ fb = ⟨"", "IT", "User", false⟩) := by
  refine ⟨fun p fb => rfl, by decide, fun fb h => ?_⟩
  simp only [resolveIdentity, jsOr]
  rw [show jsToLower "" = "" from rfl, h]

/-- Witness for C5: the empty profile resolved against the concrete
`departmentMap` of the source yields the IT default. -/
theorem c5_identity_resolver_witness :
    resolveIdentity ⟨none, none, none, none⟩ departmentMap = ⟨"", "IT", "User", false⟩ :=
  c5_identity_resolver.2.2 departmentMap (by decide)

/-- C9: a manual-login request supplying neither email nor phone but the
password admin123 succeeds and mints the admin session token, because the
admin registry entry has the empty string as its phone and the matcher
compares the lowercased identifier (here the empty string) against each
entry's phone with plain equality. -/
theorem c9_empty_identifier_admin_login (secret : String) (now : Nat) :
    manualLogin none none (some "admin123") secret now =
      .token (jwtSign ⟨"admin@samunnati.com", "Admin", true, none⟩ secret now sessionTtlManual) ∧
    (userDatabase.map UserRec.phone).head? = some "" := by
  exact ⟨rfl, rfl⟩

/-- C6: the session token codec round-trips — decoding the token produced
from any claim set at any time strictly before issue time plus ttl succeeds
with the same claims — and the ttl is fixed at 2 hours (7200 s) on both
issuance paths: the SSO callback sets the expiry to now + sessionTtlSso and
every token minted by manual login has expiry now + sessionTtlManual. -/
theorem c6_token_roundtrip :
    sessionTtlSso = 7200 ∧ sessionTtlManual = 7200 ∧
    (∀ (p : JwtPayload) (secret : String) (issue now ttl : Nat), now < issue + ttl →
      jwtVerify (jwtSign p secret issue ttl) secret now = .ok p) ∧
    (∀ (profile : GraphProfile) (fb : List (String × String)) (secret : String) (now : Nat),
      (ssoCallbackToken profile fb secret now).exp = now + sessionTtlSso) ∧
    (∀ (email phone password : Option String) (secret : String) (now : Nat) (t : SignedToken),
      manualLogin email phone password secret now = .token t →
      t.exp = now + sessionTtlManual) := by
  refine ⟨rfl, rfl, ?_, fun profile fb secret now => rfl, ?_⟩
  · intro p secret issue now ttl h
    simp only [jwtVerify, jwtSign]
    rw [if_neg (by simp), if_neg (by omega)]
  · intro email phone password secret now t h
    simp only [manualLogin] at h
    cases hf : userDatabase.find? (loginMatches (jsToLower (jsOr email (jsOr phone ""))) password) with
    | none => rw [hf] at h; exact absurd h (by simp)
    | some u =>
      rw [hf] at h
      rw [LoginResult.token.injEq] at h
      rw [← h]
      rfl

/-- Witness for C6: a concrete token decoded one second before expiry. -/
theorem c6_token_roundtrip_witness :
    jwtVerify (jwtSign ⟨"jane@co.com", "Sales", false, none⟩ "s" 0 7200) "s" 7199 =
      .ok ⟨"jane@co.com", "Sales", false, none⟩ ∧
    (jwtSign ⟨"admin@samunnati.com", "Admin", true, none⟩ "s" 5 sessionTtlManual).exp =
      5 + sessionTtlManual := by
  refine ⟨c6_token_roundtrip.2.2.1 ⟨"jane@co.com", "Sales", false, none⟩ "s" 0 7199 7200
    (by decide),
    c6_token_roundtrip.2.2.2.2 (some "admin@samunnati.com") none (some "admin123") "s" 5
      (jwtSign ⟨"admin@samunnati.com", "Admin", true, none⟩ "s" 5 sessionTtlManual) rfl⟩

/-- C2 counterexample: in the `auth-server/server.ts` issuance variant, with
reportId r, datasetId d1 and coreDatasetId d2, the request names the primary
dataset d1 but no effective-identity entry is scoped to d1 (the single
identity covers only the core dataset), so the identity scope is not the set
of requested datasets. -/
theorem c2_core_variant_counterexample :
    "d1" ∈ (embedTokenRequestCore "r" "d1" "d2" "g").datasets.map DatasetRef.id ∧
    ∀ i ∈ (embedTokenRequestCore "r" "d1" "d2" "g").identities, "d1" ∉ i.datasets := by
  decide

/-- C2 (amended to the rate-limited issuance variant): the request names
exactly the requested dataset(s) — the primary, plus the secondary only when
provided and distinct from the primary — and the effective-identity entries
all carry the single fixed service username and the single role RM, their
dataset scopes jointly covering exactly that same list of datasets. -/
theorem c2_embed_request_scope (reportId datasetId : String) (shared : Option String)
    (groupId : String) (_hr : reportId ≠ "") (_hd : datasetId ≠ "") :
    ((embedTokenRequest reportId datasetId shared groupId).identities.flatMap
        EffectiveIdentity.datasets
      = (embedTokenRequest reportId datasetId shared groupId).datasets.map DatasetRef.id) ∧
    (∀ i ∈ (embedTokenRequest reportId datasetId shared groupId).identities,
      i.username = powerBIServiceUser ∧ i.roles = ["RM"]) ∧
    ((embedTokenRequest reportId datasetId shared groupId).datasets.map DatasetRef.id
      = datasetId :: (match shared with
          | some s => if s ≠ "" ∧ s ≠ datasetId then [s] else []
          | none => [])) ∧
    (embedTokenRequest reportId datasetId shared groupId).reports = [reportId] := by
  cases shared with
  | none => simp [embedTokenRequest]
  | some s =>
    by_cases hs : s = ""
    · subst hs; simp [embedTokenRequest, sharedIncluded]
    · by_cases hsd : s = datasetId
      · subst hsd; simp [embedTokenRequest, sharedIncluded, hs]
      · simp [embedTokenRequest, sharedIncluded, hs, hsd]

/-- Witness for C2: concrete distinct primary and secondary datasets. -/
theorem c2_embed_request_scope_witness :
    (embedTokenRequest "r" "d" (some "e") "g").datasets.map DatasetRef.id = ["d", "e"] ∧
    (embedTokenRequest "r" "d" (some "e") "g").reports = ["r"] := by
  have h := c2_embed_request_scope "r" "d" (some "e") "g" (by decide) (by decide)
  exact ⟨by rw [h.2.2.1]; decide, h.2.2.2⟩

/-- C7: the embed-generation endpoint fails 400 on a missing or empty
reportId or datasetId before the rate limiter is consulted (counter map
untouched) and without any network call; a validated request over the rate
limit fails 429 without a network call; a provider failure surfaces as 500
with no partial result. -/
theorem c7_embed_endpoint_errors (reportId datasetId : Option String) (userEmail : String)
    (st : RateState) (now : Nat) (provider : Except String (String × String)) :
    ((jsTruthy reportId = false ∨ jsTruthy datasetId = false) →
      generateEmbedHandler reportId datasetId userEmail st now provider =
        (.badRequest, st, false)) ∧
    (jsTruthy reportId = true → jsTruthy datasetId = true →
      (checkEmbedRateLimit st userEmail now).1 = false →
      generateEmbedHandler reportId datasetId userEmail st now provider =
        (.rateLimited, (checkEmbedRateLimit st userEmail now).2, false)) ∧
    (∀ e : String, jsTruthy reportId = true → jsTruthy datasetId = true →
      (checkEmbedRateLimit st userEmail now).1 = true → provider = .error e →
      generateEmbedHandler reportId datasetId userEmail st now provider =
        (.serverError, (checkEmbedRateLimit st userEmail now).2, true)) := by
  refine ⟨?_, ?_, ?_⟩
  · intro h
    rcases h with h | h <;> simp [generateEmbedHandler, h]
  · intro h1 h2 h3
    simp [generateEmbedHandler, h1, h2, h3]
  · intro e h1 h2 h3 hp
    simp [generateEmbedHandler, h1, h2, h3, hp]

/-- Witness for C7: an empty reportId is rejected with 400, the counter map
untouched and the provider never consulted. -/
theorem c7_embed_endpoint_errors_witness :
    generateEmbedHandler (some "") (some "d") "u@x.com" [] 0 (.error "boom") =
      (.badRequest, [], false) :=
  (c7_embed_endpoint_errors (some "") (some "d") "u@x.com" [] 0 (.error "boom")).1
    (Or.inl (by decide))

/-- C8: the authorization middleware responds 401 when no token can be
extracted from the authorization header, responds 403 on any decode error,
and the admin gate passes a decoded user exactly when its isAdmin flag is
true, responding 403 otherwise. -/
theorem c8_auth_middleware (vf : String → Except JwtError JwtPayload) :
    verifyJWT vf none = .respond 401 "Token required" ∧
    (∀ hdr : Option String, tokenFromHeader hdr = none →
      verifyJWT vf hdr = .respond 401 "Token required") ∧
    (∀ (hdr : Option String) (t : String) (e : JwtError), tokenFromHeader hdr = some t →
      t ≠ "" → vf t = .error e → verifyJWT vf hdr = .respond 403 "Invalid token") ∧
    (∀ (hdr : Option String) (t : String) (p : JwtPayload), tokenFromHeader hdr = some t →
      t ≠ "" → vf t = .ok p → verifyJWT vf hdr = .next p) ∧
    (∀ p : JwtPayload, p.isAdmin = false → verifyAdmin (some p) = .respond 403 "Admin only") ∧
    (∀ p : JwtPayload, p.isAdmin = true → verifyAdmin (some p) = .next p) := by
  refine ⟨rfl, ?_, ?_, ?_, ?_, ?_⟩
  · intro hdr hnone
    unfold verifyJWT
    rw [hnone]
  · intro hdr t e hex hne hv
    unfold verifyJWT
    rw [hex]
    simp [hne, hv]
  · intro hdr t p hex hne hv
    unfold verifyJWT
    rw [hex]
    simp [hne, hv]
  · intro p hp
    simp [verifyAdmin, hp]
  · intro p hp
    simp [verifyAdmin, hp]

/-- Witness for C8: an expired token under a Bearer header yields 403, and a
decoded non-admin user is refused by the admin gate. -/
theorem c8_auth_middleware_witness :
    verifyJWT (fun _ => Except.error .expired) (some "Bearer abc") =
      .respond 403 "Invalid token" ∧
    verifyAdmin (some ⟨"u@x.com", "Finance", false, none⟩) = .respond 403 "Admin only" :=
  ⟨(c8_auth_middleware (fun _ => Except.error .expired)).2.2.1 (some "Bearer abc") "abc"
      .expired (by decide) (by decide) rfl,
   (c8_auth_middleware (fun _ => Except.error .expired)).2.2.2.2.1
      ⟨"u@x.com", "Finance", false, none⟩ rfl⟩

/-- C4: manual authentication matches the lowercased identifier against the
registry, succeeds on ADMIN@SAMUNNATI.COM / admin123 with the admin claims,
returns the one identical InvalidCredentials result both for a wrong
password and for an unknown identifier, and a minted token always carries
exactly the email, department and isAdmin flag of a matching registry
entry. -/
theorem c4_manual_authentication :
    (∀ (secret : String) (now : Nat),
      manualLogin (some "ADMIN@SAMUNNATI.COM") none (some "admin123") secret now =
        .token (jwtSign ⟨"admin@samunnati.com", "Admin", true, none⟩ secret now
          sessionTtlManual)) ∧
    (∀ (secret : String) (now : Nat),
      manualLogin (some "admin@samunnati.com") none (some "wrongpass") secret now =
        .invalidCredentials ∧
      manualLogin (some "nobody@x.com") none (some "anything") secret now =
        .invalidCredentials) ∧
    (∀ (email phone password : Option String) (secret : String) (now : Nat) (t : SignedToken),
      manualLogin email phone password secret now = .token t →
      ∃ u ∈ userDatabase,
        loginMatches (jsToLower (jsOr email (jsOr phone ""))) password u = true ∧
        t = jwtSign ⟨u.email, u.department, u.isAdmin, none⟩ secret now sessionTtlManual) ∧
    (∀ (email phone password : Option String) (secret : String) (now : Nat),
      (∀ u ∈ userDatabase,
        loginMatches (jsToLower (jsOr email (jsOr phone ""))) password u = false) →
      manualLogin email phone password secret now = .invalidCredentials) := by
  refine ⟨fun secret now => rfl, fun secret now => ⟨rfl, rfl⟩, ?_, ?_⟩
  · intro email phone password secret now t h
    simp only [manualLogin] at h
    cases hf : userDatabase.find? (loginMatches (jsToLower (jsOr email (jsOr phone "")))
        password) with
    | none => rw [hf] at h; exact absurd h (by simp)
    | some u =>
      rw [hf] at h
      rw [LoginResult.token.injEq] at h
      exact ⟨u, List.mem_of_find?_eq_some hf, List.find?_some hf, h.symm⟩
  · intro email phone password secret now hall
    have hf : userDatabase.find? (loginMatches (jsToLower (jsOr email (jsOr phone "")))
        password) = none := by
      rw [List.find?_eq_none]
      intro u hu
      rw [hall u hu]
      exact Bool.false_ne_true
    simp only [manualLogin]
    rw [hf]

/-- Witness for C4: an identifier absent from the registry is rejected. -/
theorem c4_manual_authentication_witness :
    manualLogin (some "nobody@x.com") none (some "pw") "s" 0 = .invalidCredentials :=
  c4_manual_authentication.2.2.2 (some "nobody@x.com") none (some "pw") "s" 0 (by decide)

theorem setCounter_self (k : String) (v w : Nat × Nat) :
    setCounter [(k, v)] k w = [(k, w)] := by
  simp [setCounter]

theorem checkEmbed_fresh (s : RateState) (k : String) (now : Nat)
    (h : s.lookup k = none) :
    checkEmbedRateLimit s k now = (true, setCounter s k (1, now + EMBED_RATE_WINDOW)) := by
  unfold checkEmbedRateLimit
  rw [h]

theorem checkEmbed_elapsed (s : RateState) (k : String) (now c r : Nat)
    (h : s.lookup k = some (c, r)) (hr : r < now) :
    checkEmbedRateLimit s k now = (true, setCounter s k (1, now + EMBED_RATE_WINDOW)) := by
  unfold checkEmbedRateLimit
  rw [h]
  simp only [if_pos hr]

theorem checkEmbed_increment (s : RateState) (k : String) (now c r : Nat)
    (h : s.lookup k = some (c, r)) (hn : now ≤ r) (hc : c < EMBED_RATE_LIMIT) :
    checkEmbedRateLimit s k now = (true, setCounter s k (c + 1, r)) := by
  unfold checkEmbedRateLimit
  rw [h]
  simp only [if_neg (show ¬r < now from by omega),
    if_neg (show ¬EMBED_RATE_LIMIT ≤ c from by omega)]

theorem checkEmbed_deny (s : RateState) (k : String) (now c r : Nat)
    (h : s.lookup k = some (c, r)) (hn : now ≤ r) (hc : EMBED_RATE_LIMIT ≤ c) :
    checkEmbedRateLimit s k now = (false, s) := by
  unfold checkEmbedRateLimit
  rw [h]
  simp only [if_neg (show ¬r < now from by omega), if_pos hc]

theorem runCalls_cons (s : RateState) (k : String) (t : Nat) (ts : List Nat) :
    runCalls s k (t :: ts) =
      ((checkEmbedRateLimit s k t).1 :: (runCalls (checkEmbedRateLimit s k t).2 k ts).1,
       (runCalls (checkEmbedRateLimit s k t).2 k ts).2) :=
  rfl

theorem runCalls_singleton (k : String) (t r : Nat) (ht : t ≤ r) :
    ∀ (n c : Nat), c + n ≤ EMBED_RATE_LIMIT →
      runCalls [(k, (c, r))] k (List.replicate n t) =
        (List.replicate n true, [(k, (c + n, r))]) := by
  intro n
  induction n with
  | zero => intro c _; simp [runCalls]
  | succ n ih =>
    intro c hc
    have hlook : List.lookup k [(k, (c, r))] = some (c, r) := by simp
    have hcheck : checkEmbedRateLimit [(k, (c, r))] k t = (true, [(k, (c + 1, r))]) := by
      rw [checkEmbed_increment [(k, (c, r))] k t c r hlook ht (by omega), setCounter_self]
    rw [List.replicate_succ, runCalls_cons, hcheck]
    rw [show (true, [(k, (c + 1, r))]).2 = [(k, (c + 1, r))] from rfl]
    rw [ih (c + 1) (by omega)]
    rw [show c + 1 + n = c + (n + 1) from by omega]
    rfl

theorem runCalls_append (s : RateState) (k : String) (ts1 ts2 : List Nat) :
    runCalls s k (ts1 ++ ts2) =
      ((runCalls s k ts1).1 ++ (runCalls (runCalls s k ts1).2 k ts2).1,
       (runCalls (runCalls s k ts1).2 k ts2).2) := by
  induction ts1 generalizing s with
  | nil => simp [runCalls]
  | cons t ts ih => simp [runCalls, ih]

/-- The trace of eleven calls for one key at one instant, from an empty
counter map: ten allowed, the eleventh denied, final counter (10, t + 60 s). -/
theorem runCalls_eleven (k : String) (t : Nat) :
    runCalls [] k (List.replicate 11 t) =
      (List.replicate 10 true ++ [false], [(k, (10, t + EMBED_RATE_WINDOW))]) := by
  have h1 : checkEmbedRateLimit [] k t = (true, [(k, (1, t + EMBED_RATE_WINDOW))]) := by
    rw [checkEmbed_fresh [] k t rfl]
    rfl
  have hsing := runCalls_singleton k t (t + EMBED_RATE_WINDOW) (by omega) 9 1 (by decide)
  have hlook : List.lookup k [(k, (10, t + EMBED_RATE_WINDOW))]
      = some (10, t + EMBED_RATE_WINDOW) := by simp
  have hlast : checkEmbedRateLimit [(k, (10, t + EMBED_RATE_WINDOW))] k t
      = (false, [(k, (10, t + EMBED_RATE_WINDOW))]) :=
    checkEmbed_deny _ k t 10 (t + EMBED_RATE_WINDOW) hlook (by omega) (by decide)
  have hsplit : List.replicate 11 t = t :: (List.replicate 9 t ++ [t]) := by
    rw [List.replicate_succ, List.replicate_succ']
  rw [hsplit, runCalls_cons, h1]
  rw [show (true, [(k, (1, t + EMBED_RATE_WINDOW))]).2 = [(k, (1, t + EMBED_RATE_WINDOW))]
    from rfl]
  rw [runCalls_append, hsing]
  simp only [runCalls_cons, hlast]
  simp [runCalls, List.replicate_succ]

/-- C3: the per-call contract of the rate limiter — fresh or elapsed key:
reset to count 1 with a fresh window and allow; within the window below the
ceiling of 10: increment and allow; at the ceiling: deny leaving the counter
untouched — and its consequence: from an empty map, ten calls for one key in
one window all succeed, the eleventh is denied, and a call after the window
has elapsed succeeds again. -/
theorem c3_rate_limiter :
    (∀ (s : RateState) (k : String) (now : Nat), s.lookup k = none →
      checkEmbedRateLimit s k now = (true, setCounter s k (1, now + EMBED_RATE_WINDOW))) ∧
    (∀ (s : RateState) (k : String) (now c r : Nat), s.lookup k = some (c, r) → r < now →
      checkEmbedRateLimit s k now = (true, setCounter s k (1, now + EMBED_RATE_WINDOW))) ∧
    (∀ (s : RateState) (k : String) (now c r : Nat), s.lookup k = some (c, r) → now ≤ r →
      c < EMBED_RATE_LIMIT →
      checkEmbedRateLimit s k now = (true, setCounter s k (c + 1, r))) ∧
    (∀ (s : RateState) (k : String) (now c r : Nat), s.lookup k = some (c, r) → now ≤ r →
      EMBED_RATE_LIMIT ≤ c → checkEmbedRateLimit s k now = (false, s)) ∧
    (∀ t : Nat, (runCalls [] "u@x.com" (List.replicate 11 t)).1 =
      List.replicate 10 true ++ [false]) ∧
    (∀ t tLater : Nat, t + EMBED_RATE_WINDOW < tLater →
      (checkEmbedRateLimit (runCalls [] "u@x.com" (List.replicate 11 t)).2
        "u@x.com" tLater).1 = true) := by
  refine ⟨checkEmbed_fresh, checkEmbed_elapsed, checkEmbed_increment, checkEmbed_deny,
    ?_, ?_⟩
  · intro t
    rw [runCalls_eleven]
  · intro t tLater hwin
    rw [runCalls_eleven]
    have hlook : List.lookup "u@x.com" [("u@x.com", (10, t + EMBED_RATE_WINDOW))]
        = some (10, t + EMBED_RATE_WINDOW) := by simp
    rw [show (List.replicate 10 true ++ [false],
        [("u@x.com", (10, t + EMBED_RATE_WINDOW))]).2
      = [("u@x.com", (10, t + EMBED_RATE_WINDOW))] from rfl]
    rw [checkEmbed_elapsed _ "u@x.com" tLater 10 (t + EMBED_RATE_WINDOW) hlook hwin]

/-- Witness for C3: a concrete run at time 0 with a follow-up call just
after the window. -/
theorem c3_rate_limiter_witness :
    (checkEmbedRateLimit (runCalls [] "u@x.com" (List.replicate 11 0)).2
      "u@x.com" 60001).1 = true :=
  c3_rate_limiter.2.2.2.2.2 0 60001 (by decide)

theorem splitOn_space_first (X t : List Char) (hX : spaceChar ∉ X) :
    (X ++ spaceChar :: t).splitOn spaceChar = X :: t.splitOn spaceChar := by
  unfold List.splitOn
  refine List.splitOnP_first _ X ?_ _ (by simp) t
  intro x hx
  simp only [beq_iff_eq]
  intro hxeq
  exact hX (hxeq ▸ hx)

theorem splitOn_space_single (t : List Char) (ht : spaceChar ∉ t) :
    t.splitOn spaceChar = [t] := by
  unfold List.splitOn
  refine List.splitOnP_eq_single _ _ ?_
  intro x hx
  simp only [beq_iff_eq]
  intro hxeq
  exact ht (hxeq ▸ hx)

theorem tokenFromHeader_scheme (X t : String) (hX : spaceChar ∉ X.data)
    (ht : spaceChar ∉ t.data) :
    tokenFromHeader (some (X ++ " " ++ t)) = some t := by
  have hdata : (X ++ " " ++ t).data = X.data ++ spaceChar :: t.data := by
    show (X.data ++ [spaceChar]) ++ t.data = X.data ++ spaceChar :: t.data
    rw [List.append_assoc]
    rfl
  simp only [tokenFromHeader]
  rw [hdata, splitOn_space_first X.data t.data hX, splitOn_space_single t.data ht]
  rfl

theorem tokenFromHeader_bare (t : String) (ht : spaceChar ∉ t.data) :
    tokenFromHeader (some t) = none := by
  simp only [tokenFromHeader]
  rw [splitOn_space_single t.data ht]
  rfl

/-- C10: the middleware takes the second space-separated segment of the
authorization header and never checks the scheme word: for any scheme word X
without spaces and any valid token t, the header X-space-t is accepted, while
the header consisting of t alone is rejected with 401 even though t is
valid. -/
theorem c10_token_extraction (vf : String → Except JwtError JwtPayload) (X t : String)
    (p : JwtPayload) (hX : spaceChar ∉ X.data) (ht : spaceChar ∉ t.data) (hne : t ≠ "")
    (hv : vf t = .ok p) :
    verifyJWT vf (some (X ++ " " ++ t)) = .next p ∧
    verifyJWT vf (some t) = .respond 401 "Token required" := by
  constructor
  · unfold verifyJWT
    rw [tokenFromHeader_scheme X t hX ht]
    simp [hne, hv]
  · unfold verifyJWT
    rw [tokenFromHeader_bare t ht]

/-- Witness for C10: the scheme word Basic is accepted just as Bearer would
be, and the bare token is refused. -/
theorem c10_token_extraction_witness :
    verifyJWT
        (fun s => if s == "tok" then .ok ⟨"u@x.com", "IT", false, none⟩
          else .error .invalidSignature)
        (some ("Basic" ++ " " ++ "tok")) = .next ⟨"u@x.com", "IT", false, none⟩ ∧
    verifyJWT
        (fun s => if s == "tok" then .ok ⟨"u@x.com", "IT", false, none⟩
          else .error .invalidSignature)
        (some "tok") = .respond 401 "Token required" :=
  c10_token_extraction
    (fun s => if s == "tok" then .ok ⟨"u@x.com", "IT", false, none⟩
      else .error .invalidSignature)
    "Basic" "tok" ⟨"u@x.com", "IT", false, none⟩ (by decide) (by decide) (by decide) rfl

end AuthPortal
